import Mathlib

/-!
Verification of the 3Delight Blender add-on exporter against its
specification.  The visible sources are src/operators.py, src/ui.py and
src/__init__.py; the exporter core (export.py, shader_parameters.py,
properties.py) is referenced by those files but absent, so the parts of
the model that come from it are marked as modelled from the spec.
All machine numbers are embedded as Nat, Int or Rat; fallible code
returns Option.
-/

/- ## Path helpers (os.path semantics used by src/operators.py) -/

/-- ASCII lowering of one character, the fragment of str.lower relevant
to file extensions. -/
def char_lower (c : Char) : Char :=
  if 'A' ≤ c ∧ c ≤ 'Z' then Char.ofNat (c.toNat + 32) else c

/-- ASCII model of str.lower. -/
def str_lower (s : String) : String := String.mk (s.toList.map char_lower)

/-- Model of os.path.dirname for slash-separated paths: the part of the
path up to and including the final slash, with trailing slashes stripped
unless the result would consist of slashes only; empty when the path has
no slash. -/
def dirname (p : String) : String :=
  let head := ((p.toList.reverse.dropWhile (fun c => c ≠ '/'))).reverse
  if head ≠ [] ∧ head.any (fun c => c ≠ '/') then
    String.mk ((head.reverse.dropWhile (fun c => c = '/')).reverse)
  else String.mk head

/-- Extension part of a basename given as a character list: the final dot
together with what follows it, or empty when the list has no dot.  Used
after stripping leading dots, mirroring os.path.splitext. -/
def lastExtOf (cs : List Char) : List Char :=
  let revTail := cs.reverse.takeWhile (fun c => c ≠ '.')
  if revTail.length = cs.length then [] else '.' :: revTail.reverse

/-- Model of the extension component of os.path.splitext: dots are looked
up only in the basename, and leading dots of the basename never start an
extension (so a path named .hdr has no extension). -/
def splitext_ext (p : String) : String :=
  let base := (p.toList.reverse.takeWhile (fun c => c ≠ '/')).reverse
  let stripped := base.dropWhile (fun c => c = '.')
  String.mk (lastExtOf stripped)

/- ## TEXT_OT_compile_shader.execute (src/operators.py lines 150 to 173) -/

/-- Report level passed to Operator.report in src/operators.py. -/
inductive ReportKind where
  | INFO
  | ERROR
deriving DecidableEq

/-- One report emitted by an operator. -/
structure Report where
  kind : ReportKind
  message : String
deriving DecidableEq

/-- Observable outcome of TEXT_OT_compile_shader.execute: the subprocess
command line, the report, and the returned status. -/
structure CompileOutcome where
  cmd : List String
  report : Report
  result : String
deriving DecidableEq

/-- Embedding of TEXT_OT_compile_shader.execute from src/operators.py:
cmd = [shader_compiler, filename, -d, dirname filename]; a nonzero
return code of subprocess.call reports an ERROR naming the source file,
a zero return code reports INFO; either way the operator returns
FINISHED.  The subprocess is abstracted as the function call from
command lines to exit codes. -/
def compile_shader_execute (shader_compiler filename : String)
    (call : List String → Int) : CompileOutcome :=
  let cmd := [shader_compiler, filename, "-d", dirname filename]
  { cmd := cmd
    report :=
      if call cmd ≠ 0 then
        { kind := ReportKind.ERROR
          message := "Error compiling shader: " ++ filename }
      else
        { kind := ReportKind.INFO
          message := "Compiled shader: " ++ filename }
    result := "FINISHED" }

/- ## ExportRIBArchive (src/operators.py lines 82 to 112) -/

/-- Embedding of ExportRIBArchive.poll from src/operators.py: true exactly
when the selected object list is nonempty. -/
def ExportRIBArchive_poll (selected_objects : List String) : Bool :=
  decide (0 < selected_objects.length)

/-- The host runs an operator only when its poll accepts the context; this
models that dispatch for ExportRIBArchive: some sel stands for
export_archive being invoked on the selection, none for the operator
being unavailable. -/
def ExportRIBArchive_run (selected_objects : List String) :
    Option (List String) :=
  if ExportRIBArchive_poll selected_objects then some selected_objects
  else none

/-- Default of the archive_motion option of ExportRIBArchive
(src/operators.py lines 91 to 92): default=True, and the option is a
caller-editable operator property forwarded to export_archive. -/
def archive_motion_default : Bool := true

/- ## TEXTURE_OT_convert_to_texture.execute (src/operators.py lines 228 to 241) -/

/-- Properties of the texture created by the conversion operator. -/
structure NewTexture where
  file_path : String
  auto_generate_texture : Bool
  use_fake_user : Bool
  input_color_space : String
  output_color_depth : String
deriving DecidableEq

/-- Embedding of the texture-creation branch of
TEXTURE_OT_convert_to_texture.execute in src/operators.py: the new
texture takes the file path, auto generation and fake user are switched
on, and when the lowercased splitext extension of the file path is .hdr
or .exr the color space is set to linear and the depth to FLOAT;
otherwise both keep the defaults of the property definitions (which live
in the absent properties.py and are therefore parameters here). -/
def convert_to_texture_create (filepath default_colorspace default_depth :
    String) : NewTexture :=
  let tex : NewTexture :=
    { file_path := filepath
      auto_generate_texture := true
      use_fake_user := true
      input_color_space := default_colorspace
      output_color_depth := default_depth }
  if str_lower (splitext_ext filepath) = ".hdr" ∨
      str_lower (splitext_ext filepath) = ".exr" then
    { tex with input_color_space := "linear", output_color_depth := "FLOAT" }
  else tex

/- ## Description Stream Writer: motion blocks -/

/-- One motion sample: a time together with its pose or geometry payload. -/
structure MotionSample where
  time : ℚ
  payload : String
deriving DecidableEq

/-- One exportable entity carrying its ordered motion samples. -/
structure Renderable where
  name : String
  samples : List MotionSample
deriving DecidableEq

/-- Items of the description stream relevant to motion blocks. -/
inductive StreamItem where
  | motionBegin (times : List ℚ)
  | motionEnd
  | sub_block (time : ℚ) (payload : String)
  | leaf (payload : String)
deriving DecidableEq

/-- Modelled from the spec: the motion-block emission of the Description
Stream Writer (export.py is not in src/), combined with the
archive_motion option that src/operators.py forwards from the caller to
export_archive.  With motion export enabled and at least two samples,
one MotionBegin wrapper lists the sample times and encloses one
time-tagged sub-block per sample in sample order; otherwise the payloads
are written without a wrapper. -/
def emit_motion (archive_motion : Bool) (r : Renderable) : List StreamItem :=
  if archive_motion = true ∧ 2 ≤ r.samples.length then
    (StreamItem.motionBegin (r.samples.map MotionSample.time) ::
      r.samples.map (fun s => StreamItem.sub_block s.time s.payload)) ++
      [StreamItem.motionEnd]
  else
    r.samples.map (fun s => StreamItem.leaf s.payload)

/-- Number of motion-block wrappers opened in a stream fragment. -/
def countMotionBegins (items : List StreamItem) : Nat :=
  items.countP fun i =>
    match i with
    | StreamItem.motionBegin _ => true
    | _ => false

/-- Number of time-tagged sub-blocks in a stream fragment. -/
def countSubBlocks (items : List StreamItem) : Nat :=
  items.countP fun i =>
    match i with
    | StreamItem.sub_block _ _ => true
    | _ => false

/- ## Description Stream Writer: block nesting -/

/-- Writer operations relevant to nesting: open a block of some kind, or
close the innermost open block. -/
inductive BlockOp where
  | open_block (kind : String)
  | close_block
deriving DecidableEq

/-- Number of open operations in a sequence. -/
def countOpens : List BlockOp → Nat
  | [] => 0
  | BlockOp.open_block _ :: rest => countOpens rest + 1
  | BlockOp.close_block :: rest => countOpens rest

/-- Number of close operations in a sequence. -/
def countCloses : List BlockOp → Nat
  | [] => 0
  | BlockOp.open_block _ :: rest => countCloses rest
  | BlockOp.close_block :: rest => countCloses rest + 1

/-- Modelled from the spec: the stack discipline of the Description Stream
Writer (export.py is not in src/).  Opens push onto the block stack,
closes pop the innermost entry; a close with no unmatched open is the
fatal StructuralError, returned as none. -/
def runOps : List BlockOp → List String → Option (List String)
  | [], st => some st
  | BlockOp.open_block k :: rest, st => runOps rest (k :: st)
  | BlockOp.close_block :: _, [] => none
  | BlockOp.close_block :: rest, _ :: st => runOps rest st

/-- Whether the writer raises StructuralError on a sequence started from
an empty block stack. -/
def raisesStructuralError (ops : List BlockOp) : Bool :=
  (runOps ops []).isNone

/- ## Frame sequencer: archive sequence export -/

/-- Outcome of exporting one frame: the resolved output path and the
recorded failure of that frame, if any. -/
structure FrameExport where
  path : String
  error : Option String
deriving DecidableEq

/-- Result of a whole export invocation. -/
structure ExportResult where
  written_paths : List String
  errors : List (Nat × String)
deriving DecidableEq

/-- Integer frames of the inclusive range frame_start..frame_end. -/
def frame_list (frame_start frame_end : Nat) : List Nat :=
  (List.range (frame_end + 1 - frame_start)).map (fun i => frame_start + i)

/-- Modelled from the spec: archive sequence export of the Frame/Motion
Sequencer (export_archive lives in the absent export.py).  Every integer
frame of the range is exported independently; a per-frame failure is
recorded with its frame number and does not stop the remaining frames,
and every frame contributes its independently resolved output path. -/
def export_sequence (frame_start frame_end : Nat)
    (doFrame : Nat → FrameExport) : ExportResult :=
  let frames := frame_list frame_start frame_end
  { written_paths := frames.map (fun f => (doFrame f).path)
    errors := frames.filterMap (fun f => ((doFrame f).error).map
      (fun e => (f, e))) }

/-- Concrete per-frame exporter in which exactly frame 2 fails with a
missing texture, used to instantiate the sequence-export contract. -/
def demoFrame : Nat → FrameExport := fun f =>
  { path := "archive." ++ toString f ++ ".rib"
    error := if f = 2 then some "missing texture" else none }

/- ## Texture Optimizer Bridge -/

/-- Per-texture regeneration flags drawn in src/ui.py lines 941 to 942. -/
structure TexFlags where
  generate_if_nonexistent : Bool
  generate_if_older : Bool
deriving DecidableEq

/-- On-disk state of the optimized artifact and its source. -/
structure TexFileState where
  optimized_exists : Bool
  src_mtime : Int
  opt_mtime : Int
deriving DecidableEq

/-- Observable outcome of one ensure_optimized call. -/
structure EnsureOutcome where
  subprocess_calls : Nat
  returned_path : String
deriving DecidableEq

/-- Modelled from the spec: ensure_optimized of the Texture Optimizer
Bridge (make_optimised_texture_3dl lives in the absent export.py).  The
optimizer subprocess runs once when the optimized file is missing and
generate_if_nonexistent is set, or when it exists but is older than the
source and generate_if_older is set; on a nonzero exit code the result
falls back to the source path, otherwise the optimized path is
returned. -/
def ensure_optimized (t : TexFlags) (fs : TexFileState)
    (srcpath optpath : String) (exit_code : Int) : EnsureOutcome :=
  if fs.optimized_exists = false then
    if t.generate_if_nonexistent = true then
      if exit_code = 0 then ⟨1, optpath⟩ else ⟨1, srcpath⟩
    else ⟨0, optpath⟩
  else
    if fs.opt_mtime < fs.src_mtime then
      if t.generate_if_older = true then
        if exit_code = 0 then ⟨1, optpath⟩ else ⟨1, srcpath⟩
      else ⟨0, optpath⟩
    else ⟨0, optpath⟩

/- ## Path Resolver: texture paths -/

/-- Texture data read by the resolver: the configured file path and the
animation settings drawn in src/ui.py lines 863 to 868. -/
structure TextureData where
  file_path : String
  animated_sequence : Bool
  blender_start : Int
  sequence_in : Int
  sequence_out : Int
deriving DecidableEq

/-- Modelled from the spec: the on-disk frame number of an animated
texture sequence (tex_source_path lives in the absent
shader_parameters.py): blender_start + (frame - blender_start), clamped
into the range sequence_in..sequence_out. -/
def tex_source_frame (tex : TextureData) (frame : Int) : Int :=
  max tex.sequence_in
    (min tex.sequence_out (tex.blender_start + (frame - tex.blender_start)))

/-- Modelled from the spec: tex_source_path (shader_parameters.py is not
in src/): non-animated assets resolve to the configured path with the
frame ignored; animated sequences append the clamped on-disk frame
number. -/
def tex_source_path (tex : TextureData) (frame : Int) : String :=
  if tex.animated_sequence then
    tex.file_path ++ "." ++ toString (tex_source_frame tex frame)
  else tex.file_path

/-- Modelled from the spec: tex_optimised_path (shader_parameters.py is
not in src/): the optimized artifact path derived from the source path
of the same frame. -/
def tex_optimised_path (tex : TextureData) (frame : Int) : String :=
  tex_source_path tex frame ++ ".tdl"

/- ## Frame/Motion Sequencer: shutter sample planning -/

/-- Modelled from the spec: the bias curve of the shutter sample
distribution.  The efficiency parameters pull the curve away from linear
spacing; with both efficiencies equal to one the curve is the identity,
and the endpoints zero and one are always fixed. -/
def shutter_bias (x efficiency_open efficiency_close : ℚ) : ℚ :=
  let w := (efficiency_open + efficiency_close) / 2
  w * x + (1 - w) * (x * x * (3 - 2 * x))

/-- Modelled from the spec: plan_samples of the Frame/Motion Sequencer
(export.py is not in src/).  A segment count of at most one yields the
single sample at the current frame time regardless of the shutter
parameters; otherwise segment_count times are distributed from
shutter_open to shutter_close along the bias curve. -/
def plan_samples (shutter_open shutter_close : ℚ) (segment_count : Nat)
    (efficiency_open efficiency_close current_frame_time : ℚ) : List ℚ :=
  if segment_count ≤ 1 then [current_frame_time]
  else (List.range segment_count).map (fun i =>
    shutter_open + (shutter_close - shutter_open) *
      shutter_bias ((i : ℚ) / ((segment_count : ℚ) - 1))
        efficiency_open efficiency_close)

/- ## Helper lemmas -/

/-- The writer run succeeds exactly when no prefix of the operation
sequence closes more blocks than it opened, the stack offsetting the
count. -/
theorem runOps_isSome_iff (ops : List BlockOp) (st : List String) :
    (runOps ops st).isSome = true ↔
      ∀ n, countCloses (ops.take n) ≤ countOpens (ops.take n) + st.length := by
  induction ops generalizing st with
  | nil => simp [runOps, countOpens, countCloses]
  | cons o rest ih =>
    cases o with
    | open_block k =>
      rw [show runOps (BlockOp.open_block k :: rest) st
            = runOps rest (k :: st) from rfl]
      rw [ih (k :: st)]
      constructor
      · intro h n
        cases n with
        | zero => simp [countCloses, countOpens]
        | succ m =>
          have hm := h m
          simp only [List.take_succ_cons, countCloses, countOpens,
            List.length_cons] at hm ⊢
          omega
      · intro h m
        have hm := h (m + 1)
        simp only [List.take_succ_cons, countCloses, countOpens,
          List.length_cons] at hm ⊢
        omega
    | close_block =>
      cases st with
      | nil =>
        constructor
        · intro h
          simp [runOps] at h
        · intro h
          exfalso
          have h1 := h 1
          simp [countCloses, countOpens, List.take_succ_cons] at h1
      | cons s st =>
        rw [show runOps (BlockOp.close_block :: rest) (s :: st)
              = runOps rest st from rfl]
        rw [ih st]
        constructor
        · intro h n
          cases n with
          | zero => simp [countCloses, countOpens]
          | succ m =>
            have hm := h m
            simp only [List.take_succ_cons, countCloses, countOpens,
              List.length_cons] at hm ⊢
            omega
        · intro h m
          have hm := h (m + 1)
          simp only [List.take_succ_cons, countCloses, countOpens,
            List.length_cons] at hm ⊢
          omega

/-- A list of time-tagged sub-blocks opens no motion wrapper. -/
theorem countMotionBegins_sub_map (l : List MotionSample) :
    countMotionBegins (l.map (fun s => StreamItem.sub_block s.time s.payload))
      = 0 := by
  induction l with
  | nil => rfl
  | cons a l ih => simp [countMotionBegins, List.countP_cons, ih]

/-- A list of leaf payloads opens no motion wrapper. -/
theorem countMotionBegins_leaf_map (l : List MotionSample) :
    countMotionBegins (l.map (fun s => StreamItem.leaf s.payload)) = 0 := by
  induction l with
  | nil => rfl
  | cons a l ih => simp [countMotionBegins, List.countP_cons, ih]

/-- A list of time-tagged sub-blocks contains one sub-block per sample. -/
theorem countSubBlocks_sub_map (l : List MotionSample) :
    countSubBlocks (l.map (fun s => StreamItem.sub_block s.time s.payload))
      = l.length := by
  induction l with
  | nil => rfl
  | cons a l ih => simp [countSubBlocks, List.countP_cons, ih]

/- ## Claim theorems -/

/-- C1 (counterexample): the claim says the motion-block wrapper is
emitted for every Renderable with two or more MotionSamples and that the
behaviour is not selected by the caller; but archive_motion is a caller
option of ExportRIBArchive, and with it disabled a two-sample Renderable
is emitted with zero motion wrappers. -/
theorem motion_block_caller_option_cex :
    ((⟨"obj", [⟨0, "p0"⟩, ⟨1, "p1"⟩]⟩ : Renderable)).samples.length = 2 ∧
    countMotionBegins
      (emit_motion false ⟨"obj", [⟨0, "p0"⟩, ⟨1, "p1"⟩]⟩) = 0 := by
  exact ⟨rfl, by decide⟩

/-- C1 (amended): with motion export enabled (the archive_motion option,
whose operator default is True), every Renderable with two or more
time-ordered MotionSamples is emitted as exactly one motion-block
wrapper holding one time-tagged sub-block per sample in ascending time
order, and a Renderable with at most one sample is emitted with zero
motion wrappers; the enabling itself is a caller option of
ExportRIBArchive, not a decision the writer makes alone. -/
theorem motion_block_emission (archive_motion : Bool) (r : Renderable)
    (hs : List.Chain' (fun a b : MotionSample => a.time < b.time) r.samples) :
    archive_motion_default = true ∧
    (archive_motion = true → 2 ≤ r.samples.length →
      emit_motion archive_motion r =
        (StreamItem.motionBegin (r.samples.map MotionSample.time) ::
          r.samples.map (fun s => StreamItem.sub_block s.time s.payload)) ++
          [StreamItem.motionEnd] ∧
      countMotionBegins (emit_motion archive_motion r) = 1 ∧
      countSubBlocks (emit_motion archive_motion r) = r.samples.length ∧
      List.Chain' (fun a b : ℚ => a < b)
        (r.samples.map MotionSample.time)) ∧
    (r.samples.length ≤ 1 →
      countMotionBegins (emit_motion archive_motion r) = 0) := by
  refine ⟨rfl, ?_, ?_⟩
  · intro hm h2
    subst hm
    have hemit : emit_motion true r =
        (StreamItem.motionBegin (r.samples.map MotionSample.time) ::
          r.samples.map (fun s => StreamItem.sub_block s.time s.payload)) ++
          [StreamItem.motionEnd] := by
      simp [emit_motion, h2]
    refine ⟨hemit, ?_, ?_, ?_⟩
    · rw [hemit]
      simp [countMotionBegins, List.countP_cons, List.countP_append,
        countMotionBegins_sub_map r.samples]
    · rw [hemit]
      simp [countSubBlocks, List.countP_cons, List.countP_append,
        countSubBlocks_sub_map r.samples]
    · exact (List.chain'_map MotionSample.time).mpr hs
  · intro h1
    have hcond : ¬(archive_motion = true ∧ 2 ≤ r.samples.length) := by
      rintro ⟨_, h2⟩
      omega
    rw [show emit_motion archive_motion r =
        r.samples.map (fun s => StreamItem.leaf s.payload) from by
      simp [emit_motion, hcond]]
    exact countMotionBegins_leaf_map r.samples

/-- C1 (witness): the amended theorem applied to a concrete two-sample
Renderable with ascending times, under the default-enabled option. -/
theorem motion_block_emission_witness :
    List.Chain' (fun a b : MotionSample => a.time < b.time)
      ([⟨0, "p0"⟩, ⟨1, "p1"⟩] : List MotionSample) ∧
    countMotionBegins
      (emit_motion true ⟨"obj", [⟨0, "p0"⟩, ⟨1, "p1"⟩]⟩) = 1 := by
  have hs : List.Chain' (fun a b : MotionSample => a.time < b.time)
      ([⟨0, "p0"⟩, ⟨1, "p1"⟩] : List MotionSample) :=
    List.chain'_pair.mpr (by decide)
  exact ⟨hs,
    ((motion_block_emission true ⟨"obj", [⟨0, "p0"⟩, ⟨1, "p1"⟩]⟩ hs).2.1
      rfl (by decide)).2.1⟩

/-- C2: a sequence of open and close operations in which some prefix
closes more blocks than were opened (a close that matches no unmatched
open) makes the writer raise StructuralError, and a properly nested
sequence (no such prefix, and every open eventually closed) never
does. -/
theorem open_close_nesting (ops : List BlockOp) :
    ((∃ n, countOpens (ops.take n) < countCloses (ops.take n)) →
      raisesStructuralError ops = true) ∧
    ((∀ n, n ≤ ops.length →
        countCloses (ops.take n) ≤ countOpens (ops.take n)) →
      countCloses ops = countOpens ops →
      raisesStructuralError ops = false) := by
  have hiff := runOps_isSome_iff ops []
  simp only [List.length_nil, Nat.add_zero] at hiff
  constructor
  · rintro ⟨n, hn⟩
    unfold raisesStructuralError
    cases h : runOps ops [] with
    | none => rfl
    | some st =>
      exfalso
      have hall := hiff.mp (by simp [h])
      have := hall n
      omega
  · intro hpre _
    unfold raisesStructuralError
    have hall : ∀ n, countCloses (ops.take n) ≤ countOpens (ops.take n) := by
      intro n
      rcases le_or_lt n ops.length with h1 | h1
      · exact hpre n h1
      · rw [List.take_of_length_le h1.le]
        have := hpre ops.length le_rfl
        rwa [List.take_length] at this
    have hsome := hiff.mpr hall
    cases h : runOps ops [] with
    | none => rw [h] at hsome; simp at hsome
    | some st => rfl

/-- C2 (witness): a close with no matching open raises, and a properly
nested open-open-close-close sequence does not. -/
theorem open_close_nesting_witness :
    raisesStructuralError
      [BlockOp.close_block, BlockOp.open_block "world"] = true ∧
    raisesStructuralError
      [BlockOp.open_block "world", BlockOp.open_block "attr",
        BlockOp.close_block, BlockOp.close_block] = false :=
  ⟨(open_close_nesting _).1 ⟨1, by decide⟩,
    (open_close_nesting _).2 (by decide) (by decide)⟩

/-- C3: exporting the archive sequence over frames 1 to 3 with exactly
frame 2 failing on a missing texture writes one output path per frame
(three in all, and in general one per frame of any range) and reports an
errors list of length one referencing frame 2; the per-frame failure
never aborts the remaining frames. -/
theorem export_sequence_contract (doFrame : Nat → FrameExport) (e : String)
    (h2 : (doFrame 2).error = some e)
    (hother : ∀ f, f ≠ 2 → (doFrame f).error = none) :
    (∀ frame_start frame_end,
      (export_sequence frame_start frame_end doFrame).written_paths.length
        = frame_end + 1 - frame_start) ∧
    (export_sequence 1 3 doFrame).written_paths =
      [(doFrame 1).path, (doFrame 2).path, (doFrame 3).path] ∧
    (export_sequence 1 3 doFrame).errors = [(2, e)] := by
  have h1 := hother 1 (by decide)
  have h3 := hother 3 (by decide)
  have hfl : frame_list 1 3 = [1, 2, 3] := by decide
  refine ⟨?_, ?_, ?_⟩
  · intro frame_start frame_end
    simp [export_sequence, frame_list]
  · simp [export_sequence, hfl]
  · simp [export_sequence, hfl, h1, h2, h3]

/-- C3 (witness): the contract applied to the concrete per-frame exporter
in which exactly frame 2 is missing its texture. -/
theorem export_sequence_contract_witness :
    (export_sequence 1 3 demoFrame).written_paths.length = 3 ∧
    (export_sequence 1 3 demoFrame).errors = [(2, "missing texture")] := by
  have h := export_sequence_contract demoFrame "missing texture" rfl
    (fun f hf => by simp [demoFrame, hf])
  exact ⟨by rw [h.2.1]; rfl, h.2.2⟩

/-- C4: ensure_optimized runs the optimizer subprocess exactly when the
optimized file is missing with generate_if_nonexistent enabled, or
exists but is older than its source with generate_if_older enabled; in
particular with generate_if_older on and a stale optimized file it makes
exactly one subprocess call and returns the optimized path, and with an
up-to-date optimized file and both flags off it makes zero calls. -/
theorem ensure_optimized_staleness (t : TexFlags) (fs : TexFileState)
    (src opt : String) (exit_code : Int) :
    ((ensure_optimized t fs src opt exit_code).subprocess_calls = 1 ↔
      (fs.optimized_exists = false ∧ t.generate_if_nonexistent = true) ∨
      (fs.optimized_exists = true ∧ fs.opt_mtime < fs.src_mtime ∧
        t.generate_if_older = true)) ∧
    (ensure_optimized t fs src opt exit_code).subprocess_calls ≤ 1 ∧
    (t.generate_if_older = true → fs.optimized_exists = true →
      fs.opt_mtime < fs.src_mtime → exit_code = 0 →
      (ensure_optimized t fs src opt exit_code).subprocess_calls = 1 ∧
      (ensure_optimized t fs src opt exit_code).returned_path = opt) ∧
    (t.generate_if_nonexistent = false → t.generate_if_older = false →
      fs.optimized_exists = true → fs.src_mtime ≤ fs.opt_mtime →
      (ensure_optimized t fs src opt exit_code).subprocess_calls = 0) := by
  rcases t with ⟨gn, go⟩
  rcases fs with ⟨ex, sm, om⟩
  cases ex <;> cases gn <;> cases go <;>
    simp only [ensure_optimized] <;> split_ifs <;> simp_all

/-- C4 (witness): one call and the optimized path for a stale file under
generate_if_older, zero calls for an up-to-date file with both flags
off. -/
theorem ensure_optimized_staleness_witness :
    (ensure_optimized ⟨false, true⟩ ⟨true, 10, 5⟩ "a.tif" "a.tex" 0
      ).subprocess_calls = 1 ∧
    (ensure_optimized ⟨false, true⟩ ⟨true, 10, 5⟩ "a.tif" "a.tex" 0
      ).returned_path = "a.tex" ∧
    (ensure_optimized ⟨false, false⟩ ⟨true, 5, 10⟩ "a.tif" "a.tex" 0
      ).subprocess_calls = 0 := by
  have h1 := (ensure_optimized_staleness ⟨false, true⟩ ⟨true, 10, 5⟩
    "a.tif" "a.tex" 0).2.2.1 rfl rfl (by decide) rfl
  have h2 := (ensure_optimized_staleness ⟨false, false⟩ ⟨true, 5, 10⟩
    "a.tif" "a.tex" 0).2.2.2 rfl rfl rfl (by decide)
  exact ⟨h1.1, h1.2, h2⟩

/-- C5: for an animated texture the resolver computes the on-disk frame
as the clamp of blender_start + (frame - blender_start) into
sequence_in..sequence_out: in-range frames are kept, frames outside the
range hold the nearest boundary, and the result always lies in the
range. -/
theorem tex_sequence_frame_clamp (tex : TextureData) (frame : Int)
    (hr : tex.sequence_in ≤ tex.sequence_out) :
    tex_source_frame tex frame =
      max tex.sequence_in (min tex.sequence_out
        (tex.blender_start + (frame - tex.blender_start))) ∧
    (tex.sequence_in ≤ frame → frame ≤ tex.sequence_out →
      tex_source_frame tex frame = frame) ∧
    (frame < tex.sequence_in →
      tex_source_frame tex frame = tex.sequence_in) ∧
    (tex.sequence_out < frame →
      tex_source_frame tex frame = tex.sequence_out) ∧
    tex.sequence_in ≤ tex_source_frame tex frame ∧
    tex_source_frame tex frame ≤ tex.sequence_out := by
  refine ⟨rfl, ?_⟩
  unfold tex_source_frame
  omega

/-- C5 (witness): a frame past the end of the range resolves to the
range end. -/
theorem tex_sequence_frame_clamp_witness :
    tex_source_frame ⟨"seq", true, 1, 10, 20⟩ 25 = 20 :=
  (tex_sequence_frame_clamp ⟨"seq", true, 1, 10, 20⟩ 25
    (by decide)).2.2.2.1 (by decide)

/-- C6: tex_source_path and tex_optimised_path are deterministic pure
functions of the (asset, frame) pair: two calls with identical inputs
return identical paths. -/
theorem tex_path_pure (t1 t2 : TextureData) (f1 f2 : Int)
    (ht : t1 = t2) (hf : f1 = f2) :
    tex_source_path t1 f1 = tex_source_path t2 f2 ∧
    tex_optimised_path t1 f1 = tex_optimised_path t2 f2 := by
  subst ht
  subst hf
  exact ⟨rfl, rfl⟩

/-- C6 (witness): two calls on one concrete animated asset and frame. -/
theorem tex_path_pure_witness :
    tex_source_path ⟨"seq", true, 1, 10, 20⟩ 12 =
      tex_source_path ⟨"seq", true, 1, 10, 20⟩ 12 ∧
    tex_optimised_path ⟨"seq", true, 1, 10, 20⟩ 12 =
      tex_optimised_path ⟨"seq", true, 1, 10, 20⟩ 12 :=
  tex_path_pure _ _ _ _ rfl rfl

/-- C7: plan_samples with shutter 0 to 1, two segments and both
efficiencies one returns exactly the two times 0 and 1, spanning the
shutter interval; with a single segment it returns exactly the current
frame time whatever the shutter parameters are. -/
theorem plan_samples_spec (shutter_open shutter_close efficiency_open
    efficiency_close t u : ℚ) :
    plan_samples 0 1 2 1 1 t = [0, 1] ∧
    (plan_samples 0 1 2 1 1 t).length = 2 ∧
    plan_samples shutter_open shutter_close 1 efficiency_open
      efficiency_close u = [u] := by
  have h1 : plan_samples 0 1 2 1 1 t = [0, 1] := by
    unfold plan_samples shutter_bias
    norm_num [List.range_succ]
  exact ⟨h1, by rw [h1]; rfl, rfl⟩

/-- C8: the shader compiler is invoked as exactly the command line
[compiler_binary, source_file, -d, output_dir] with output_dir the
directory of the source file; exit code zero reports success, every
nonzero exit code reports an error carrying the source filename, and the
operator returns FINISHED either way. -/
theorem compile_shader_contract (compiler filename : String)
    (call : List String → Int) :
    (compile_shader_execute compiler filename call).cmd =
      [compiler, filename, "-d", dirname filename] ∧
    (compile_shader_execute compiler filename call).result = "FINISHED" ∧
    (call [compiler, filename, "-d", dirname filename] = 0 →
      (compile_shader_execute compiler filename call).report =
        { kind := ReportKind.INFO
          message := "Compiled shader: " ++ filename }) ∧
    (call [compiler, filename, "-d", dirname filename] ≠ 0 →
      (compile_shader_execute compiler filename call).report =
        { kind := ReportKind.ERROR
          message := "Error compiling shader: " ++ filename }) := by
  by_cases h : call [compiler, filename, "-d", dirname filename] = 0 <;>
    simp [compile_shader_execute, h]

/-- C8 (witness): the contract applied to a failing compiler call on a
concrete shader file. -/
theorem compile_shader_contract_witness :
    (compile_shader_execute "shaderdl" "proj/spot.sl"
        (fun _ => 1)).report =
      { kind := ReportKind.ERROR
        message := "Error compiling shader: " ++ "proj/spot.sl" } :=
  (compile_shader_contract "shaderdl" "proj/spot.sl"
    (fun _ => 1)).2.2.2 (by decide)

/-- C9: ExportRIBArchive.poll accepts exactly the contexts with a
nonempty selection, and the operator dispatch therefore never invokes
export_archive on an empty selection. -/
theorem rib_archive_poll_spec (selected_objects : List String) :
    (ExportRIBArchive_poll selected_objects = true ↔
      selected_objects ≠ []) ∧
    (∀ s, ExportRIBArchive_run selected_objects = some s → s ≠ []) := by
  have hp : ExportRIBArchive_poll selected_objects = true ↔
      selected_objects ≠ [] := by
    simp [ExportRIBArchive_poll, List.length_pos]
  refine ⟨hp, ?_⟩
  intro s hs
  by_cases h : ExportRIBArchive_poll selected_objects = true
  · unfold ExportRIBArchive_run at hs
    rw [if_pos h] at hs
    cases hs
    exact hp.mp h
  · unfold ExportRIBArchive_run at hs
    rw [if_neg h] at hs
    cases hs

/-- C9 (witness): a one-object selection passes poll and is nonempty. -/
theorem rib_archive_poll_spec_witness : (["Cube"] : List String) ≠ [] :=
  (rib_archive_poll_spec ["Cube"]).1.mp (by decide)

/-- C10: the texture created by convert-to-texture gets a linear color
space and FLOAT depth exactly when the lowercased extension of its file
path is .hdr or .exr; any other extension leaves both properties at the
property-definition defaults. -/
theorem convert_to_texture_colorspace (fp dcs dd : String) :
    ((str_lower (splitext_ext fp) = ".hdr" ∨
        str_lower (splitext_ext fp) = ".exr") →
      (convert_to_texture_create fp dcs dd).input_color_space = "linear" ∧
      (convert_to_texture_create fp dcs dd).output_color_depth = "FLOAT") ∧
    (str_lower (splitext_ext fp) ≠ ".hdr" →
      str_lower (splitext_ext fp) ≠ ".exr" →
      (convert_to_texture_create fp dcs dd).input_color_space = dcs ∧
      (convert_to_texture_create fp dcs dd).output_color_depth = dd) := by
  constructor
  · rintro (h | h) <;> simp [convert_to_texture_create, h]
  · intro h1 h2
    simp [convert_to_texture_create, h1, h2]

/-- C10 (witness): an uppercase HDR extension triggers the linear and
FLOAT settings. -/
theorem convert_to_texture_colorspace_witness :
    (convert_to_texture_create "tex/env.HDR" "sRGB"
      "UBYTE").input_color_space = "linear" ∧
    (convert_to_texture_create "tex/env.HDR" "sRGB"
      "UBYTE").output_color_depth = "FLOAT" :=
  (convert_to_texture_colorspace "tex/env.HDR" "sRGB" "UBYTE").1
    (Or.inl (by decide))
